import Mathlib

/-!
Shallow embedding of the kraan addons-layer controller core:
the layer status model (`pkg/internal/layers/layers.go`) and the
reconciler / artifact-mapping logic (the `controllers` package source).
External effects (the cluster API, the apply/prune executor, the
filesystem link step) are modelled as explicit inputs; the executor
calls made during a pass are recorded in an explicit trace so that
"at most one mutation per pass" style properties can be stated.
-/

namespace Kraan

/-! ### Condition/state names

Modelled from the spec: the `kraanv1alpha1` api package is not among the
given sources; the state enumeration is taken from the spec's §3/§6 list
`Hold | WaitingForClusterVersion | PrunePending | Pruning | Pruned |
ApplyPending | Applying | Deployed | Failed`.  Reason/message constants
are opaque distinct strings; no property depends on their exact text. -/

def HoldCondition : String := "Hold"
def K8sVersionCondition : String := "WaitingForClusterVersion"
def PrunePendingCondition : String := "PrunePending"
def PruningCondition : String := "Pruning"
def PrunedCondition : String := "Pruned"
def ApplyPendingCondition : String := "ApplyPending"
def ApplyingCondition : String := "Applying"
def DeployedCondition : String := "Deployed"
def FailedCondition : String := "Failed"

def AddonsLayerK8sVersionReason : String := "AddonsLayerK8sVersionReason"
def AddonsLayerK8sVersionMsg : String := "AddonsLayerK8sVersionMsg"
def AddonsLayerDeployedReason : String := "AddonsLayerDeployedReason"
def AddonsLayerApplyPendingReason : String := "AddonsLayerApplyPendingReason"
def AddonsLayerApplyPendingMsg : String := "AddonsLayerApplyPendingMsg"
def AddonsLayerApplyingReason : String := "AddonsLayerApplyingReason"
def AddonsLayerApplyingMsg : String := "AddonsLayerApplyingMsg"
def AddonsLayerPrunePendingReason : String := "AddonsLayerPrunePendingReason"
def AddonsLayerPrunePendingMsg : String := "AddonsLayerPrunePendingMsg"
def AddonsLayerPrunedReason : String := "AddonsLayerPrunedReason"
def AddonsLayerPrunedMsg : String := "AddonsLayerPrunedMsg"
def AddonsLayerPruningReason : String := "AddonsLayerPruningReason"
def AddonsLayerPruningMsg : String := "AddonsLayerPruningMsg"
def AddonsLayerHoldReason : String := "AddonsLayerHoldReason"
def AddonsLayerHoldMsg : String := "AddonsLayerHoldMsg"
def AddonsLayerFailedReason : String := "AddonsLayerFailedReason"

/-- `corev1.ConditionTrue`. -/
def ConditionTrue : String := "True"

/-- `MaxConditions` is the maximum number of conditions to retain
(`layers.go`). -/
def MaxConditions : Nat := 10

/-! ### Data model (AddonsLayer resource) -/

/-- One entry of `Status.Conditions` as built by `setStatus`. -/
structure Condition where
  type : String
  version : String
  status : String
  lastTransitionTime : Nat
  reason : String
  message : String
  deriving Repr, DecidableEq

/-- `Spec.Source`: namespace, name and path reference to a repository. -/
structure Source where
  nameSpace : String
  name : String
  path : String
  deriving Repr, DecidableEq

/-- `Spec.PreReqs`. -/
structure PreReqs where
  k8sVersion : String
  deriving Repr, DecidableEq

/-- The AddonsLayer `Spec`; `interval` is `Spec.Interval.Duration`. -/
structure AddonsLayerSpec where
  source : Source
  version : String
  hold : Bool
  preReqs : PreReqs
  interval : Nat
  deriving Repr, DecidableEq

/-- The AddonsLayer `Status` sub-resource. -/
structure AddonsLayerStatus where
  state : String
  version : String
  conditions : List Condition
  deriving Repr, DecidableEq

/-- The AddonsLayer custom resource (name plus spec/status). -/
structure AddonsLayer where
  name : String
  spec : AddonsLayerSpec
  status : AddonsLayerStatus
  deriving Repr, DecidableEq

/-- `KraanLayer`: the per-pass layer wrapper with its transient flags.
`now` stands for the ambient clock read by `metav1.Now()`, held fixed
for the operations modelled. -/
structure KraanLayer where
  updated : Bool
  requeue : Bool
  delayed : Bool
  delay : Nat
  now : Nat
  addonsLayer : AddonsLayer
  deriving Repr, DecidableEq

/-- Go's byte-wise lexicographic `<` on strings, on the character lists;
under UTF-8 the byte-wise order and the codepoint-lexicographic order
coincide, so this is exactly the comparison Go performs. -/
def goCharsLt : List Char → List Char → Bool
  | [], [] => false
  | [], _ :: _ => true
  | _ :: _, [] => false
  | a :: as, b :: bs => if a < b then true else if b < a then false else goCharsLt as bs

/-- Go string `<`. -/
def goStringLt (s t : String) : Bool := goCharsLt s.data t.data

/-- `CreateLayer` builds the wrapper with all flags cleared and the delay
taken from the spec's interval. -/
def CreateLayer (addonsLayer : AddonsLayer) (now : Nat) : KraanLayer :=
  { updated := false
    requeue := false
    delayed := false
    delay := addonsLayer.spec.interval
    now := now
    addonsLayer := addonsLayer }

namespace KraanLayer

/-- `SetRequeue` sets the requeue flag. -/
def SetRequeue (l : KraanLayer) : KraanLayer := { l with requeue := true }

/-- `SetUpdated` sets the updated flag. -/
def SetUpdated (l : KraanLayer) : KraanLayer := { l with updated := true }

/-- `SetDelayed` sets the delayed flag. -/
def SetDelayed (l : KraanLayer) : KraanLayer := { l with delayed := true }

/-- `GetStatus` returns `Status.State`. -/
def GetStatus (l : KraanLayer) : String := l.addonsLayer.status.state

/-- `GetRequiredK8sVersion` returns `Spec.PreReqs.K8sVersion`. -/
def GetRequiredK8sVersion (l : KraanLayer) : String :=
  l.addonsLayer.spec.preReqs.k8sVersion

/-- `IsHold` returns `Spec.Hold`. -/
def IsHold (l : KraanLayer) : Bool := l.addonsLayer.spec.hold

/-- `IsUpdated`. -/
def IsUpdated (l : KraanLayer) : Bool := l.updated

/-- `IsDelayed`. -/
def IsDelayed (l : KraanLayer) : Bool := l.delayed

/-- `NeedsRequeue`. -/
def NeedsRequeue (l : KraanLayer) : Bool := l.requeue

/-- `GetDelay`. -/
def GetDelay (l : KraanLayer) : Nat := l.delay

/-- `setStatus` appends a condition carrying the spec's version, sets
`Status.State` and `Status.Version`, and raises both pass flags.
The trim of old conditions is commented out in the source
(`trimConditions` is dead code), so the append is unconditional. -/
def setStatus (l : KraanLayer) (status reason message : String) : KraanLayer :=
  let a := l.addonsLayer
  { l with
    addonsLayer :=
      { a with
        status :=
          { state := status
            version := a.spec.version
            conditions := a.status.conditions ++
              [{ type := status
                 version := a.spec.version
                 status := ConditionTrue
                 lastTransitionTime := l.now
                 reason := reason
                 message := message }] } }
    updated := true
    requeue := true }

/-- `SetStatusK8sVersion`. -/
def SetStatusK8sVersion (l : KraanLayer) : KraanLayer :=
  l.setStatus K8sVersionCondition AddonsLayerK8sVersionReason AddonsLayerK8sVersionMsg

/-- `SetStatusDeployed`: no-op when the state is already `Deployed`. -/
def SetStatusDeployed (l : KraanLayer) : KraanLayer :=
  if l.GetStatus != DeployedCondition then
    l.setStatus DeployedCondition AddonsLayerDeployedReason ""
  else l

/-- `SetStatusApplyPending`. -/
def SetStatusApplyPending (l : KraanLayer) : KraanLayer :=
  l.setStatus ApplyPendingCondition AddonsLayerApplyPendingReason AddonsLayerApplyPendingMsg

/-- `SetStatusApplying`. -/
def SetStatusApplying (l : KraanLayer) : KraanLayer :=
  l.setStatus ApplyingCondition AddonsLayerApplyingReason AddonsLayerApplyingMsg

/-- `SetStatusPrunePending`. -/
def SetStatusPrunePending (l : KraanLayer) : KraanLayer :=
  l.setStatus PrunePendingCondition AddonsLayerPrunePendingReason AddonsLayerPrunePendingMsg

/-- `SetStatusPruned`. -/
def SetStatusPruned (l : KraanLayer) : KraanLayer :=
  l.setStatus PrunedCondition AddonsLayerPrunedReason AddonsLayerPrunedMsg

/-- `SetStatusPruning`. -/
def SetStatusPruning (l : KraanLayer) : KraanLayer :=
  l.setStatus PruningCondition AddonsLayerPruningReason AddonsLayerPruningMsg

/-- `StatusUpdate` delegates to `setStatus`. -/
def StatusUpdate (l : KraanLayer) (status reason message : String) : KraanLayer :=
  l.setStatus status reason message

/-- `SetStatusPruningToPruned`: move to pruned only from pruning or
prune-pending. -/
def SetStatusPruningToPruned (l : KraanLayer) : KraanLayer :=
  if l.GetStatus == PruningCondition || l.GetStatus == PrunePendingCondition then
    l.SetStatusPruned
  else l

/-- `SetHold`: record the hold state once, and only when the hold flag is
set and the state is not already `Hold`; the extra `updated` write after
`StatusUpdate` is kept from the source. -/
def SetHold (l : KraanLayer) : KraanLayer :=
  if l.IsHold && l.GetStatus != HoldCondition then
    let l := l.StatusUpdate HoldCondition AddonsLayerHoldReason AddonsLayerHoldMsg
    { l with updated := true }
  else l

/-- `DependenciesDeployed`: the `KraanLayer` implementation in the source
is a stub that always reports false. -/
def DependenciesDeployed (_ : KraanLayer) : Bool := false

/-- `IsPruningRequired`: stubbed to true in the source. -/
def IsPruningRequired (_ : KraanLayer) : Bool := true

/-- `IsApplyRequired`: stubbed to false in the source. -/
def IsApplyRequired (_ : KraanLayer) : Bool := false

/-- `SuccessfullyApplied`: stubbed to false in the source. -/
def SuccessfullyApplied (_ : KraanLayer) : Bool := false

/-- `AllPruned`: stubbed to false in the source. -/
def AllPruned (_ : KraanLayer) : Bool := false

/-- Modelled from the spec: `SetDelayedRequeue` is called throughout the
controllers source but its definition is not among the given sources
(only its callers are).  Per §4.1 "mark the pass for a delayed requeue"
and §4.3 "`delayed` → requeue after the descriptor's configured
interval", it raises the requeue and delayed flags. -/
def SetDelayedRequeue (l : KraanLayer) : KraanLayer :=
  { l with requeue := true, delayed := true }

/-- `CheckK8sVersion`: `serverVersion` is the result of the discovery
client's `ServerVersion()` call.  On failure the source records a
warning condition on the current state, sets the delayed flag and
reports false; otherwise it compares version strings with Go's `>`
(byte-wise lexicographic). -/
def CheckK8sVersion (serverVersion : Except String String) (l : KraanLayer) :
    KraanLayer × Bool :=
  match serverVersion with
  | Except.error e =>
    let l := l.StatusUpdate l.GetStatus "failed to obtain cluster api server version" e
    (l.SetDelayed, false)
  | Except.ok v => (l, goStringLt l.GetRequiredK8sVersion v)

/-- `GetSourcePath`: `rootPath/namespace/name/path`. -/
def GetSourcePath (l : KraanLayer) : String :=
  "/repos" ++ "/" ++ l.addonsLayer.spec.source.nameSpace ++ "/" ++
    l.addonsLayer.spec.source.name ++ "/" ++ l.addonsLayer.spec.source.path

end KraanLayer

/-! ### Reconciler control loop (`controllers` package)

The executor (`apply.LayerApplier`) is an external collaborator; it is
modelled by the results its five calls would return during the pass.
Each `process*` function additionally records, in order, which executor
calls it actually made. -/

/-- Results of the executor's calls, as observed by this pass.
Each Go `(value, error)` pair becomes a value field and an error field. -/
structure Applier where
  pruneRequired : Bool
  pruneRequiredErr : Option String
  pruneErr : Option String
  applyRequired : Bool
  applyRequiredErr : Option String
  applyErr : Option String
  applySuccessful : Bool
  applySuccessfulErr : Option String
  deriving Repr, DecidableEq

/-- The five executor entry points of the §6 contract. -/
inductive ExecCall where
  | pruneIsRequired
  | prune
  | applyIsRequired
  | apply
  | applyWasSuccessful
  deriving Repr, DecidableEq

/-- Result of `processPrune` / `processApply`: the layer, the executor
calls made, and the Go returns `(statusReconciled, err)`. -/
structure ProcResult where
  layer : KraanLayer
  calls : List ExecCall
  statusReconciled : Bool
  err : Option String
  deriving Repr, DecidableEq

/-- Result of `checkSuccess` / `processAddonLayer`: layer, calls made,
returned error. -/
structure PassResult where
  layer : KraanLayer
  calls : List ExecCall
  err : Option String
  deriving Repr, DecidableEq

/-- `processPrune`.  Note the source's guard on the `Prune` call is
`if pruneErr := applier.Prune(ctx, l, hrs); err != nil`, testing the
outer `err` (necessarily nil at that point) rather than `pruneErr`;
the embedding keeps that dead branch as written. -/
def processPrune (ap : Applier) (l : KraanLayer) : ProcResult :=
  let err := ap.pruneRequiredErr
  if err.isSome then
    { layer := l, calls := [ExecCall.pruneIsRequired], statusReconciled := false, err := err }
  else if ap.pruneRequired then
    let l := l.SetStatusPruning
    let pruneErr := ap.pruneErr
    if err.isSome then
      { layer := l, calls := [ExecCall.pruneIsRequired, ExecCall.prune]
        statusReconciled := true, err := pruneErr }
    else
      { layer := l.SetDelayedRequeue, calls := [ExecCall.pruneIsRequired, ExecCall.prune]
        statusReconciled := true, err := none }
  else
    { layer := l, calls := [ExecCall.pruneIsRequired], statusReconciled := false, err := none }

/-- `processApply`.  `depsDeployed` is the result of the
`l.DependenciesDeployed()` interface call (the `KraanLayer`
implementation in the source always returns false).  The guard on the
`Apply` call repeats the source's `err != nil` (not `applyErr != nil`)
shadowing slip, kept as written. -/
def processApply (ap : Applier) (depsDeployed : Bool) (l : KraanLayer) : ProcResult :=
  let err := ap.applyRequiredErr
  if err.isSome then
    { layer := l, calls := [ExecCall.applyIsRequired], statusReconciled := false, err := err }
  else if ap.applyRequired then
    if !depsDeployed then
      { layer := l.SetDelayedRequeue, calls := [ExecCall.applyIsRequired]
        statusReconciled := true, err := none }
    else
      let l := l.SetStatusApplying
      let applyErr := ap.applyErr
      if err.isSome then
        { layer := l, calls := [ExecCall.applyIsRequired, ExecCall.apply]
          statusReconciled := true, err := applyErr }
      else
        { layer := l.SetDelayedRequeue, calls := [ExecCall.applyIsRequired, ExecCall.apply]
          statusReconciled := true, err := none }
  else
    { layer := l, calls := [ExecCall.applyIsRequired], statusReconciled := false, err := none }

/-- `checkSuccess`: ask `ApplyWasSuccessful`; error aborts, not-ready
marks a delayed requeue, ready marks deployed. -/
def checkSuccess (ap : Applier) (l : KraanLayer) : PassResult :=
  if ap.applySuccessfulErr.isSome then
    { layer := l, calls := [ExecCall.applyWasSuccessful], err := ap.applySuccessfulErr }
  else if !ap.applySuccessful then
    { layer := l.SetDelayedRequeue, calls := [ExecCall.applyWasSuccessful], err := none }
  else
    { layer := l.SetStatusDeployed, calls := [ExecCall.applyWasSuccessful], err := none }

/-- `processAddonLayer`: one evaluation pass of the layer state machine.
`serverVersion` is the discovery client's answer. -/
def processAddonLayer (ap : Applier) (serverVersion : Except String String)
    (depsDeployed : Bool) (l : KraanLayer) : PassResult :=
  if l.IsHold then
    { layer := l.SetHold, calls := [], err := none }
  else
    let ck := l.CheckK8sVersion serverVersion
    if !ck.2 then
      { layer := ck.1.SetStatusK8sVersion.SetDelayedRequeue, calls := [], err := none }
    else
      let r1 := processPrune ap ck.1
      if r1.err.isSome then
        { layer := r1.layer, calls := r1.calls, err := r1.err }
      else if r1.statusReconciled then
        { layer := r1.layer, calls := r1.calls, err := none }
      else
        let r2 := processApply ap depsDeployed r1.layer
        if r2.err.isSome then
          { layer := r2.layer, calls := r1.calls ++ r2.calls, err := r2.err }
        else if r2.statusReconciled then
          { layer := r2.layer, calls := r1.calls ++ r2.calls, err := none }
        else
          let r3 := checkSuccess ap r2.layer
          { layer := r3.layer, calls := r1.calls ++ r2.calls ++ r3.calls, err := r3.err }

/-- `ctrl.Result`: `requeueAfter = none` is the zero value (immediate
requeue when `requeue` is set). -/
structure CtrlResult where
  requeue : Bool
  requeueAfter : Option Nat
  deriving Repr, DecidableEq

/-- `updateRequeue`: persist when updated, then pick the scheduling
decision.  `updateErr` is the status-update call's result; the third
component records whether the persist call was made (`IsUpdated`). -/
def updateRequeue (updateErr : Option String) (l : KraanLayer) :
    CtrlResult × Option String × Bool :=
  let updateCalled := l.IsUpdated
  let rerr := if l.IsUpdated then updateErr else none
  if l.NeedsRequeue then
    if l.IsDelayed then
      ({ requeue := true, requeueAfter := some l.GetDelay }, rerr, updateCalled)
    else
      ({ requeue := true, requeueAfter := none }, rerr, updateCalled)
  else
    ({ requeue := false, requeueAfter := none }, rerr, updateCalled)

/-- Result of the client `Get` for the requested AddonsLayer. -/
inductive GetResult where
  | found (a : AddonsLayer)
  | notFound
  | errored (e : String)
  deriving Repr, DecidableEq

/-- Observable outcome of one `Reconcile` call: the returned
`ctrl.Result` and error, plus (instrumentation) the final layer object
and the executor calls made. -/
structure ReconcileResult where
  result : CtrlResult
  rerr : Option String
  layer : Option KraanLayer
  calls : List ExecCall
  deriving Repr, DecidableEq

/-- `Reconcile`: load the layer (not-found is ignored), run the pass,
record a `Failed` condition when the pass returned an error, then
persist/schedule via `updateRequeue`. -/
def Reconcile (ap : Applier) (serverVersion : Except String String)
    (depsDeployed : Bool) (updateErr : Option String) (now : Nat)
    (getRes : GetResult) : ReconcileResult :=
  match getRes with
  | GetResult.errored e =>
    { result := { requeue := false, requeueAfter := none }, rerr := some e
      layer := none, calls := [] }
  | GetResult.notFound =>
    { result := { requeue := false, requeueAfter := none }, rerr := none
      layer := none, calls := [] }
  | GetResult.found a =>
    let l := CreateLayer a now
    let r := processAddonLayer ap serverVersion depsDeployed l
    let l :=
      match r.err with
      | some e => r.layer.StatusUpdate FailedCondition AddonsLayerFailedReason e
      | none => r.layer
    let ur := updateRequeue updateErr l
    { result := ur.1, rerr := ur.2.1, layer := some l, calls := r.calls }

/-! ### Artifact sync mapping (`repoMapperFunc`) -/

/-- Identity of the GitRepository the event is about. -/
structure Repo where
  name : String
  nameSpace : String
  deriving Repr, DecidableEq

/-- What the mapper produces: either the batch of reconcile requests
(layer names), or process termination (`os.Exit(1)`). -/
inductive MapperOutcome where
  | exited
  | requests (reqs : List String)
  deriving Repr, DecidableEq

/-- The per-addon loop of `repoMapperFunc`: a matching layer's request
is appended, then the source link is attempted for the layer; a link
failure calls `os.Exit(1)`, terminating the process.  `linkOk` tells
whether the `os.Link` for a given addon succeeds. -/
def repoMapperLoop (repo : Repo) (linkOk : AddonsLayer → Bool)
    (acc : List String) : List AddonsLayer → MapperOutcome
  | [] => MapperOutcome.requests acc
  | addon :: rest =>
    let acc :=
      if addon.spec.source.name == repo.name
          && addon.spec.source.nameSpace == repo.nameSpace then
        acc ++ [addon.name]
      else acc
    if linkOk addon then repoMapperLoop repo linkOk acc rest
    else MapperOutcome.exited

/-- `repoMapperFunc` after the kind/cast checks: a sync failure yields
an empty batch; otherwise every known AddonsLayer is visited. -/
def repoMapperFunc (repo : Repo) (syncOk : Bool) (linkOk : AddonsLayer → Bool)
    (addons : List AddonsLayer) : MapperOutcome :=
  if syncOk then repoMapperLoop repo linkOk [] addons
  else MapperOutcome.requests []

/-! ### Operations of the layer, as one inductive

Used to state invariants quantified over every state-mutating operation
the `Layer` implementation exposes. -/

/-- Every mutating operation of `KraanLayer` in the source (the
status-transition operations, the flag setters, and the spec-modelled
`SetDelayedRequeue`). -/
inductive LayerOp where
  | opSetStatusK8sVersion
  | opSetStatusApplying
  | opSetStatusApplyPending
  | opSetStatusPrunePending
  | opSetStatusPruned
  | opSetStatusPruning
  | opSetStatusDeployed
  | opStatusUpdate (status reason message : String)
  | opSetHold
  | opSetStatusPruningToPruned
  | opSetRequeue
  | opSetDelayed
  | opSetUpdated
  | opSetDelayedRequeue
  deriving Repr, DecidableEq

/-- Interpret a `LayerOp` on a layer. -/
def applyOp : LayerOp → KraanLayer → KraanLayer
  | LayerOp.opSetStatusK8sVersion, l => l.SetStatusK8sVersion
  | LayerOp.opSetStatusApplying, l => l.SetStatusApplying
  | LayerOp.opSetStatusApplyPending, l => l.SetStatusApplyPending
  | LayerOp.opSetStatusPrunePending, l => l.SetStatusPrunePending
  | LayerOp.opSetStatusPruned, l => l.SetStatusPruned
  | LayerOp.opSetStatusPruning, l => l.SetStatusPruning
  | LayerOp.opSetStatusDeployed, l => l.SetStatusDeployed
  | LayerOp.opStatusUpdate s r m, l => l.StatusUpdate s r m
  | LayerOp.opSetHold, l => l.SetHold
  | LayerOp.opSetStatusPruningToPruned, l => l.SetStatusPruningToPruned
  | LayerOp.opSetRequeue, l => l.SetRequeue
  | LayerOp.opSetDelayed, l => l.SetDelayed
  | LayerOp.opSetUpdated, l => l.SetUpdated
  | LayerOp.opSetDelayedRequeue, l => l.SetDelayedRequeue

/-- The §3 invariant: `Status.State` equals the type of the most
recently appended condition (vacuous while no condition exists). -/
def stateMatchesLastCondition (l : KraanLayer) : Bool :=
  match l.addonsLayer.status.conditions.getLast? with
  | none => true
  | some c => l.addonsLayer.status.state == c.type

/-- Iterate `StatusUpdate` (the unconditional status transition)
`n` times. -/
def iterStatusUpdate : Nat → KraanLayer → KraanLayer
  | 0, l => l
  | n + 1, l =>
    iterStatusUpdate n (l.StatusUpdate ApplyingCondition AddonsLayerApplyingReason "")

/-! ### Concrete fixtures used by witnesses and counterexamples -/

/-- A benign executor: nothing required, nothing erroring. -/
def applierQuiet : Applier :=
  { pruneRequired := false, pruneRequiredErr := none, pruneErr := none
    applyRequired := false, applyRequiredErr := none, applyErr := none
    applySuccessful := true, applySuccessfulErr := none }

/-- An executor where an apply is required and the `Apply` call fails. -/
def applierApplyFails : Applier :=
  { pruneRequired := false, pruneRequiredErr := none, pruneErr := none
    applyRequired := true, applyRequiredErr := none, applyErr := some "apply failed"
    applySuccessful := false, applySuccessfulErr := none }

/-- An executor where an apply is required and would succeed. -/
def applierApplyNeeded : Applier :=
  { pruneRequired := false, pruneRequiredErr := none, pruneErr := none
    applyRequired := true, applyRequiredErr := none, applyErr := none
    applySuccessful := false, applySuccessfulErr := none }

/-- A sample spec: source `ns/repo` at path `p`, version `0.1.0`,
not held, prerequisite cluster version `v1.16.0`, interval 60. -/
def spec0 : AddonsLayerSpec :=
  { source := { nameSpace := "ns", name := "repo", path := "p" }
    version := "0.1.0", hold := false
    preReqs := { k8sVersion := "v1.16.0" }, interval := 60 }

/-- A fresh resource built on `spec0` with an empty status. -/
def addons0 : AddonsLayer :=
  { name := "l0", spec := spec0
    status := { state := "", version := "", conditions := [] } }

/-- The same resource with the hold flag set. -/
def addonsHold : AddonsLayer :=
  { addons0 with spec := { spec0 with hold := true } }

/-- A held resource already in the `Hold` state with one condition. -/
def addonsHeldAlready : AddonsLayer :=
  { addonsHold with
    status :=
      { state := HoldCondition, version := "0.1.0"
        conditions := [{ type := HoldCondition, version := "0.1.0"
                         status := ConditionTrue, lastTransitionTime := 0
                         reason := AddonsLayerHoldReason
                         message := AddonsLayerHoldMsg }] } }

/-- A fresh pass wrapper over `addons0` at clock 0. -/
def layer0 : KraanLayer := CreateLayer addons0 0

/-- A wrapper whose layer is already `Deployed`. -/
def layerDeployed : KraanLayer :=
  CreateLayer
    { addons0 with
      status :=
        { state := DeployedCondition, version := "0.1.0"
          conditions := [{ type := DeployedCondition, version := "0.1.0"
                           status := ConditionTrue, lastTransitionTime := 0
                           reason := AddonsLayerDeployedReason, message := "" }] } }
    0

/-- A second addons resource, referencing the same repository. -/
def addons1 : AddonsLayer :=
  { name := "l1", spec := spec0
    status := { state := "", version := "", conditions := [] } }

/-! ### Shared lemmas -/

/-- `setStatus` always re-establishes the state/last-condition link. -/
theorem stateMatchesLastCondition_setStatus (l : KraanLayer) (s r m : String) :
    stateMatchesLastCondition (l.setStatus s r m) = true := by
  simp [stateMatchesLastCondition, KraanLayer.setStatus, List.getLast?_concat]

/-- `processPrune` calls the executor's `PruneIsRequired` and at most
also `Prune`. -/
theorem processPrune_calls (ap : Applier) (l : KraanLayer) :
    (processPrune ap l).calls = [ExecCall.pruneIsRequired]
      ∨ (processPrune ap l).calls = [ExecCall.pruneIsRequired, ExecCall.prune] := by
  unfold processPrune
  by_cases h1 : ap.pruneRequiredErr.isSome <;>
    by_cases h2 : ap.pruneRequired = true <;> simp [h1, h2]

/-- When `processPrune` reports nothing reconciled, it made no `Prune`
call. -/
theorem processPrune_not_reconciled_calls (ap : Applier) (l : KraanLayer)
    (h : (processPrune ap l).statusReconciled = false) :
    (processPrune ap l).calls = [ExecCall.pruneIsRequired] := by
  unfold processPrune at h ⊢
  by_cases h1 : ap.pruneRequiredErr.isSome <;>
    by_cases h2 : ap.pruneRequired = true <;> simp [h1, h2] at h ⊢

/-- `processApply` calls the executor's `ApplyIsRequired` and at most
also `Apply`. -/
theorem processApply_calls (ap : Applier) (deps : Bool) (l : KraanLayer) :
    (processApply ap deps l).calls = [ExecCall.applyIsRequired]
      ∨ (processApply ap deps l).calls = [ExecCall.applyIsRequired, ExecCall.apply] := by
  unfold processApply
  by_cases h1 : ap.applyRequiredErr.isSome <;>
    by_cases h2 : ap.applyRequired = true <;>
    by_cases h3 : deps = true <;> simp [h1, h2, h3]

/-- `checkSuccess` only calls the executor's `ApplyWasSuccessful`. -/
theorem checkSuccess_calls (ap : Applier) (l : KraanLayer) :
    (checkSuccess ap l).calls = [ExecCall.applyWasSuccessful] := by
  unfold checkSuccess
  by_cases h1 : ap.applySuccessfulErr.isSome <;>
    by_cases h2 : ap.applySuccessful = true <;> simp [h1, h2]

/-! ### Claims -/

set_option maxHeartbeats 1000000 in
/-- Claim C1: for every evaluation pass over a layer, at most one
external mutation (one `Prune` or `Apply` executor call) is issued: if
the prune branch takes its terminal action the apply branch is never
reached in the same pass, so `Prune` and `Apply` never both occur in
one pass. -/
theorem prune_apply_at_most_one_per_pass (ap : Applier)
    (sv : Except String String) (deps : Bool) (l : KraanLayer) :
    (processAddonLayer ap sv deps l).calls.count ExecCall.prune
      + (processAddonLayer ap sv deps l).calls.count ExecCall.apply ≤ 1 := by
  unfold processAddonLayer
  dsimp only
  split
  · simp
  · split
    · simp
    · split
      · rcases processPrune_calls ap (KraanLayer.CheckK8sVersion sv l).1 with h1 | h1 <;>
          simp [h1, List.count_cons]
      · split
        · rcases processPrune_calls ap (KraanLayer.CheckK8sVersion sv l).1 with h1 | h1 <;>
            simp [h1, List.count_cons]
        · rename_i hRec
          have h1 := processPrune_not_reconciled_calls ap (KraanLayer.CheckK8sVersion sv l).1
            (by simpa using hRec)
          split
          · rcases processApply_calls ap deps
                (processPrune ap (KraanLayer.CheckK8sVersion sv l).1).layer with h2 | h2 <;>
              simp [h1, h2, List.count_append, List.count_cons]
          · split
            · rcases processApply_calls ap deps
                  (processPrune ap (KraanLayer.CheckK8sVersion sv l).1).layer with h2 | h2 <;>
                simp [h1, h2, List.count_append, List.count_cons]
            · rcases processApply_calls ap deps
                  (processPrune ap (KraanLayer.CheckK8sVersion sv l).1).layer with h2 | h2 <;>
                simp [h1, h2, checkSuccess_calls, List.count_append, List.count_cons]

/-- Claim C2 (failing input): with `ApplyIsRequired = true`,
dependencies satisfied, and the `Apply` executor call returning an
error, the pass does not abort: the error is swallowed (the source
tests the shadowing outer `err`, not `applyErr`), the layer is left in
`Applying` rather than `Failed`, no error condition is recorded, and a
delayed — not immediate — requeue is scheduled. -/
theorem apply_error_swallowed_not_failed :
    (Reconcile applierApplyFails (Except.ok "v1.17.0") true none 0
      (GetResult.found addons0)).rerr = none ∧
    ((Reconcile applierApplyFails (Except.ok "v1.17.0") true none 0
      (GetResult.found addons0)).layer.map fun l => l.addonsLayer.status.state)
      = some ApplyingCondition ∧
    (Reconcile applierApplyFails (Except.ok "v1.17.0") true none 0
      (GetResult.found addons0)).result
      = { requeue := true, requeueAfter := some 60 } := by
  decide

/-- Claim C3: in any pass that reaches the apply check with
`ApplyIsRequired` reporting true while the dependencies are not all
deployed, the `Apply` executor call is not made, the layer resource
(hence its state) is left unchanged, a delayed requeue is marked, and
no error is returned. -/
theorem unsatisfied_dependency_blocks_apply (ap : Applier)
    (sv : Except String String) (l : KraanLayer)
    (hHold : l.IsHold = false)
    (hVer : (l.CheckK8sVersion sv).2 = true)
    (hPrErr : ap.pruneRequiredErr = none)
    (hPr : ap.pruneRequired = false)
    (hApErr : ap.applyRequiredErr = none)
    (hAp : ap.applyRequired = true) :
    (processAddonLayer ap sv false l).calls.count ExecCall.apply = 0 ∧
    (processAddonLayer ap sv false l).layer.addonsLayer = l.addonsLayer ∧
    (processAddonLayer ap sv false l).layer.delayed = true ∧
    (processAddonLayer ap sv false l).layer.requeue = true ∧
    (processAddonLayer ap sv false l).err = none := by
  rcases sv with e | v
  · simp [KraanLayer.CheckK8sVersion] at hVer
  · simp only [KraanLayer.CheckK8sVersion] at hVer
    unfold processAddonLayer processPrune processApply
    simp [KraanLayer.CheckK8sVersion, hHold, hVer, hPrErr, hPr, hApErr, hAp,
      KraanLayer.SetDelayedRequeue, List.count_cons, List.count_append]

/-- Witness for C3 at a concrete fresh layer and executor. -/
theorem unsatisfied_dependency_blocks_apply_witness :
    (processAddonLayer applierApplyNeeded (Except.ok "v1.17.0") false layer0).calls.count
      ExecCall.apply = 0 ∧
    (processAddonLayer applierApplyNeeded (Except.ok "v1.17.0") false layer0).layer.addonsLayer
      = layer0.addonsLayer ∧
    (processAddonLayer applierApplyNeeded (Except.ok "v1.17.0") false layer0).layer.delayed
      = true ∧
    (processAddonLayer applierApplyNeeded (Except.ok "v1.17.0") false layer0).layer.requeue
      = true ∧
    (processAddonLayer applierApplyNeeded (Except.ok "v1.17.0") false layer0).err = none :=
  unsatisfied_dependency_blocks_apply applierApplyNeeded (Except.ok "v1.17.0") layer0
    (by decide) (by decide) (by decide) (by decide) (by decide) (by decide)

/-- Claim C4: for a layer whose descriptor's hold flag is set, every
reconcile pass makes no executor call and ends with the layer in
`Hold`, appending no new condition when it is already `Hold`. -/
theorem hold_layer_ends_hold_no_executor_call (ap : Applier)
    (sv : Except String String) (deps : Bool) (updateErr : Option String)
    (now : Nat) (a : AddonsLayer) (h : a.spec.hold = true) :
    (Reconcile ap sv deps updateErr now (GetResult.found a)).calls = [] ∧
    ((Reconcile ap sv deps updateErr now (GetResult.found a)).layer.map
      fun l => l.addonsLayer.status.state) = some HoldCondition ∧
    (a.status.state = HoldCondition →
      ((Reconcile ap sv deps updateErr now (GetResult.found a)).layer.map
        fun l => l.addonsLayer.status.conditions) = some a.status.conditions) := by
  unfold Reconcile processAddonLayer
  dsimp only
  have hHold : (CreateLayer a now).IsHold = true := by
    simp [CreateLayer, KraanLayer.IsHold, h]
  simp only [hHold, if_true]
  unfold KraanLayer.SetHold
  by_cases hs : a.status.state = HoldCondition
  · simp [hHold, hs, CreateLayer, KraanLayer.GetStatus, KraanLayer.IsHold, h]
  · simp [hHold, hs, CreateLayer, KraanLayer.GetStatus, KraanLayer.IsHold, h,
      KraanLayer.StatusUpdate, KraanLayer.setStatus]

/-- Witness for C4: a held layer already in `Hold` ends in `Hold`, with
its conditions untouched and no executor call. -/
theorem hold_layer_ends_hold_no_executor_call_witness :
    (Reconcile applierQuiet (Except.ok "v1.17.0") true none 0
      (GetResult.found addonsHeldAlready)).calls = [] ∧
    ((Reconcile applierQuiet (Except.ok "v1.17.0") true none 0
      (GetResult.found addonsHeldAlready)).layer.map
        fun l => l.addonsLayer.status.state) = some HoldCondition ∧
    ((Reconcile applierQuiet (Except.ok "v1.17.0") true none 0
      (GetResult.found addonsHeldAlready)).layer.map
        fun l => l.addonsLayer.status.conditions)
      = some addonsHeldAlready.status.conditions :=
  have h := hold_layer_ends_hold_no_executor_call applierQuiet (Except.ok "v1.17.0")
    true none 0 addonsHeldAlready (by decide)
  ⟨h.1, h.2.1, h.2.2 (by decide)⟩

/-- Claim C5 (failing input): with the cluster version exactly equal to
the descriptor's prerequisite, the pass does not proceed past the gate:
`CheckK8sVersion` uses strict `>`, so the layer moves to
`WaitingForClusterVersion` with a delayed requeue — contradicting the
function's own documentation ("equal to or above") and the claim. -/
theorem equal_cluster_version_blocked_at_gate :
    (processAddonLayer applierQuiet (Except.ok "v1.16.0") true
      (CreateLayer addons0 0)).layer.addonsLayer.status.state = K8sVersionCondition ∧
    (processAddonLayer applierQuiet (Except.ok "v1.16.0") true
      (CreateLayer addons0 0)).layer.delayed = true ∧
    (processAddonLayer applierQuiet (Except.ok "v1.16.0") true
      (CreateLayer addons0 0)).calls = [] := by
  decide

/-- Claim C6 (failing input): eleven consecutive status transitions on a
fresh layer retain eleven conditions — the commented-out
`trimConditions` means the `MaxConditions` bound is never enforced. -/
theorem conditions_exceed_max_conditions :
    (iterStatusUpdate 11 layer0).addonsLayer.status.conditions.length = 11 ∧
    MaxConditions < (iterStatusUpdate 11 layer0).addonsLayer.status.conditions.length := by
  decide

/-- Claim C7: `setStatus` (hence every `SetStatus*` operation and
`StatusUpdate`) leaves the status state equal to the type of the most
recently appended condition, and every operation of the layer preserves
that invariant. -/
theorem state_equals_last_condition_type :
    (∀ (l : KraanLayer) (s r m : String),
      stateMatchesLastCondition (l.setStatus s r m) = true) ∧
    (∀ (op : LayerOp) (l : KraanLayer),
      stateMatchesLastCondition l = true →
      stateMatchesLastCondition (applyOp op l) = true) := by
  refine ⟨stateMatchesLastCondition_setStatus, ?_⟩
  intro op l h
  cases op with
  | opSetStatusK8sVersion => exact stateMatchesLastCondition_setStatus l _ _ _
  | opSetStatusApplying => exact stateMatchesLastCondition_setStatus l _ _ _
  | opSetStatusApplyPending => exact stateMatchesLastCondition_setStatus l _ _ _
  | opSetStatusPrunePending => exact stateMatchesLastCondition_setStatus l _ _ _
  | opSetStatusPruned => exact stateMatchesLastCondition_setStatus l _ _ _
  | opSetStatusPruning => exact stateMatchesLastCondition_setStatus l _ _ _
  | opSetStatusDeployed =>
    show stateMatchesLastCondition l.SetStatusDeployed = true
    unfold KraanLayer.SetStatusDeployed
    split
    · exact stateMatchesLastCondition_setStatus l _ _ _
    · exact h
  | opStatusUpdate s r m => exact stateMatchesLastCondition_setStatus l _ _ _
  | opSetHold =>
    show stateMatchesLastCondition l.SetHold = true
    unfold KraanLayer.SetHold
    split
    · exact stateMatchesLastCondition_setStatus l _ _ _
    · exact h
  | opSetStatusPruningToPruned =>
    show stateMatchesLastCondition l.SetStatusPruningToPruned = true
    unfold KraanLayer.SetStatusPruningToPruned
    split
    · exact stateMatchesLastCondition_setStatus l _ _ _
    · exact h
  | opSetRequeue => exact h
  | opSetDelayed => exact h
  | opSetUpdated => exact h
  | opSetDelayedRequeue => exact h

/-- Witness for C7: the invariant is preserved on a concrete deployed
layer by a concrete operation. -/
theorem state_equals_last_condition_type_witness :
    stateMatchesLastCondition (applyOp LayerOp.opSetStatusDeployed layerDeployed) = true :=
  state_equals_last_condition_type.2 LayerOp.opSetStatusDeployed layerDeployed (by decide)

/-- Claim C8 (failing input): a failing `os.Link` for one layer makes
`repoMapperFunc` call `os.Exit(1)`: the process terminates and no batch
at all is returned, instead of recording the failure and omitting only
that layer's request. -/
theorem link_failure_terminates_process :
    repoMapperFunc { name := "repo", nameSpace := "ns" } true
      (fun a => a.name != "l0") [addons0, addons1] = MapperOutcome.exited := by
  decide

/-- Claim C9: the mark-deployed transition is idempotent — repeating it
is the same as doing it once, an already-deployed layer is untouched,
and from any other state two consecutive calls append exactly one
condition. -/
theorem set_status_deployed_idempotent (l : KraanLayer) :
    l.SetStatusDeployed.SetStatusDeployed = l.SetStatusDeployed ∧
    (l.GetStatus = DeployedCondition → l.SetStatusDeployed = l) ∧
    (l.GetStatus ≠ DeployedCondition →
      l.SetStatusDeployed.SetStatusDeployed.addonsLayer.status.conditions.length
        = l.addonsLayer.status.conditions.length + 1) := by
  by_cases h : l.GetStatus = DeployedCondition
  · constructor
    · simp [KraanLayer.SetStatusDeployed, h]
    · exact ⟨fun _ => by simp [KraanLayer.SetStatusDeployed, h], fun hn => absurd h hn⟩
  · have h1 : l.SetStatusDeployed
        = l.setStatus DeployedCondition AddonsLayerDeployedReason "" := by
      simp [KraanLayer.SetStatusDeployed, h]
    have h2 : (l.setStatus DeployedCondition AddonsLayerDeployedReason "").GetStatus
        = DeployedCondition := by
      simp [KraanLayer.setStatus, KraanLayer.GetStatus]
    have h3 : (l.setStatus DeployedCondition AddonsLayerDeployedReason "").SetStatusDeployed
        = l.setStatus DeployedCondition AddonsLayerDeployedReason "" := by
      simp [KraanLayer.SetStatusDeployed, h2]
    refine ⟨?_, fun hd => absurd hd h, fun _ => ?_⟩
    · rw [h1, h3]
    · rw [h1, h3]
      simp [KraanLayer.setStatus]

/-- Witness for C9: an already-deployed layer is untouched, and a fresh
layer gains exactly one condition over two consecutive calls. -/
theorem set_status_deployed_idempotent_witness :
    layerDeployed.SetStatusDeployed = layerDeployed ∧
    layer0.SetStatusDeployed.SetStatusDeployed.addonsLayer.status.conditions.length
      = layer0.addonsLayer.status.conditions.length + 1 :=
  ⟨(set_status_deployed_idempotent layerDeployed).2.1 (by decide),
   (set_status_deployed_idempotent layer0).2.2 (by decide)⟩

/-- Claim C10: every `setStatus` raises both the updated and requeue
flags and records the spec's version in the appended condition and as
the status's observed version; consequently `updateRequeue` both
persists (the update call is made) and requeues after any
state-changing pass. -/
theorem setStatus_flags_and_versions (l : KraanLayer) (s r m : String)
    (updateErr : Option String) :
    (l.setStatus s r m).updated = true ∧
    (l.setStatus s r m).requeue = true ∧
    (l.setStatus s r m).addonsLayer.status.version = l.addonsLayer.spec.version ∧
    ((l.setStatus s r m).addonsLayer.status.conditions.getLast?.map Condition.version)
      = some l.addonsLayer.spec.version ∧
    (updateRequeue updateErr (l.setStatus s r m)).2.2 = true ∧
    (updateRequeue updateErr (l.setStatus s r m)).1.requeue = true := by
  refine ⟨rfl, rfl, rfl, ?_, ?_, ?_⟩
  · simp [KraanLayer.setStatus, List.getLast?_concat]
  · by_cases hd : l.delayed <;>
      simp [updateRequeue, KraanLayer.IsUpdated, KraanLayer.NeedsRequeue,
        KraanLayer.IsDelayed, KraanLayer.setStatus, hd]
  · by_cases hd : l.delayed <;>
      simp [updateRequeue, KraanLayer.IsUpdated, KraanLayer.NeedsRequeue,
        KraanLayer.IsDelayed, KraanLayer.setStatus, hd]

end Kraan
